import Mathlib

/-!
Verification of `app.py` (AI-Powered Web App / Game Generator).

The program is a single Streamlit script: `call_n8n_generate_code` POSTs the
user's prompt to a fixed webhook and extracts a `code` string from the JSON
response; `main` wires two buttons (generate / run) around a session slot
`st.session_state["generated_code"]`, and the run button `exec`s the stored
code in a namespace `{"st": st}` and then calls `render_app()` if defined.

The embedding below models one Streamlit rerun as a pure function from the
interaction inputs (widget values, which button fired, the network's answer,
and the semantics of executing the generated code) to a list of observable
effects plus the new session-slot value.
-/

namespace AppGen

/-- JSON values, as produced by `resp.json()` in `call_n8n_generate_code`.
Numbers are collapsed to `Int` (no claim depends on float values). -/
inductive Json where
  | null : Json
  | bool (b : Bool) : Json
  | num (n : Int) : Json
  | str (s : String) : Json
  | arr (xs : List Json) : Json
  | obj (fields : List (String × Json)) : Json

/-- Python truthiness of a JSON value, used by the `or ""` in
`(data.get("code") or "").strip()`: `None`, `False`, `0`, `""`, `[]`, `{}`
are falsy; everything else is truthy. -/
def Json.truthy : Json → Bool
  | .null => false
  | .bool b => b
  | .num n => n != 0
  | .str s => s != ""
  | .arr xs => !xs.isEmpty
  | .obj fs => !fs.isEmpty

/-- Python `dict.get(key)`: `none` models Python `None` (key absent). A parsed JSON
dict has unique keys, so first-match lookup is the dict semantics. -/
def dictGet (fields : List (String × Json)) (key : String) : Option Json :=
  (fields.find? (fun kv => kv.1 = key)).map (fun kv => kv.2)

/-- Outcome of the single `requests.post(...)` call, as seen by the client:
either the call itself raises (connection error, timeout, too many
redirects, ...), or it returns a response with a status code and a body that
either parses as JSON (`some j`) or makes `resp.json()` raise (`none`). -/
inductive PostResult where
  | exn : PostResult
  | ok (status : Nat) (body : Option Json) : PostResult

/-- The library call `requests.Response.raise_for_status` raises `HTTPError` exactly for
client errors (400–499) and server errors (500–599); informational,
success and redirection statuses do not raise. -/
def raise_for_status_raises (status : Nat) : Bool :=
  (decide (400 ≤ status) && decide (status < 500)) ||
    (decide (500 ≤ status) && decide (status < 600))

/-- Python `str.strip()` on the character list: drop whitespace from both
ends (ASCII whitespace; no claim depends on exotic whitespace characters). -/
def stripChars (l : List Char) : List Char :=
  ((l.dropWhile Char.isWhitespace).reverse.dropWhile Char.isWhitespace).reverse

/-- Python `str.strip()`. -/
def pyStrip (s : String) : String := String.mk (stripChars s.data)

/-- Constant `N8N_WEBHOOK_URL` from `app.py`. -/
def N8N_WEBHOOK_URL : String := "https://YOUR-N8N-URL/webhook/generate-app"

/-- Observable effects of one rerun of the script (the ones the claims talk
about; purely decorative header/sidebar output is omitted). -/
inductive Effect where
  /-- The call `requests.post` with `json={"prompt": prompt, "mode": mode}` and `timeout=t`. -/
  | httpPost (url : String) (prompt : String) (mode : String) (timeout : Nat) : Effect
  /-- The call `st.error(msg)` (for messages with interpolated exception text, `msg`
  is the fixed message head). -/
  | stError (msg : String) : Effect
  /-- The call `st.warning(msg)`. -/
  | stWarning (msg : String) : Effect
  /-- The call `st.success(msg)`. -/
  | stSuccess (msg : String) : Effect
  /-- The call `st.info(msg)`. -/
  | stInfo (msg : String) : Effect
  /-- The call `st.code(code)` in the preview panel. -/
  | stCode (code : String) : Effect
  /-- The call `st.write(msg)` in the preview panel. -/
  | stWrite (msg : String) : Effect
  /-- The call `exec(code, ns, ns)` on a namespace whose keys are `nsKeys`. -/
  | execCode (nsKeys : List String) (code : String) : Effect
  /-- the call `render_func()` on the entry point found in the namespace. -/
  | callRender : Effect
  /-- one rendering call the entry point makes on the injected `st` handle. -/
  | renderOut (s : String) : Effect
deriving Repr, DecidableEq

/-- Message head of `st.error(f"Error contacting n8n: {e}")`. -/
def errContactMsg : String := "Error contacting n8n: "

/-- Function `call_n8n_generate_code(prompt, mode)` of `app.py`, parameterized by the
network's answer `net` to the one POST it performs.  Returns the effect
trace and the returned string.  Mirrors the source line by line:
`requests.post` (raises on `exn`), `resp.raise_for_status()`,
`resp.json()` (raises when the body is unparseable, and `data.get` raises
`AttributeError` when the body is not a dict), then
`(data.get("code") or "").strip()` — where `.strip()` raises on a truthy
non-string value; every raise lands in the `except` branch, which shows
`st.error` and returns `""`. -/
def call_n8n_generate_code (net : PostResult) (prompt : String) (mode : String) :
    List Effect × String :=
  let post := Effect.httpPost N8N_WEBHOOK_URL prompt mode 90
  let fail : List Effect × String := ([post, Effect.stError errContactMsg], "")
  match net with
  | .exn => fail
  | .ok status body =>
    if raise_for_status_raises status then fail
    else
      match body with
      | none => fail
      | some (Json.obj fields) =>
        match dictGet fields "code" with
        | some (Json.str s) => if s = "" then ([post], "") else ([post], pyStrip s)
        | some v => if v.truthy then fail else ([post], "")
        | none => ([post], "")
      | some _ => fail

/-! ## Executor model -/

/-- What `local_ns.get("render_app")` yields after `exec` has completed:
the name is absent, bound to a non-callable value, or bound to a callable.
A callable carries whether it accepts a call with zero arguments
(`zeroArg`), the rendering calls its body makes on the injected `st` handle
(`out`), and whether its body raises (`raises`); a callable with
`zeroArg = false` raises `TypeError` at the call itself, before its body
runs. -/
inductive RenderBinding where
  | absent : RenderBinding
  | notCallable : RenderBinding
  | callable (zeroArg : Bool) (out : List String) (raises : Bool) : RenderBinding

/-- Semantics of `exec(code, ns, ns)` on one code string: either the
top-level code raises, or it completes and leaves some binding (or none)
for `render_app` in the namespace. -/
inductive ExecResult where
  | raises : ExecResult
  | completes (binding : RenderBinding) : ExecResult

/-- An execution environment: what running each possible code string does.
A fixed function models code whose execution and entry point perform no
side-effecting state changes, so that a rerun behaves the same. -/
def ExecSem : Type := String → ExecResult

/-- Message of `st.warning` when the run button is clicked with an empty slot. -/
def runWarnMsg : String := "Generate the code first before trying to run the app."

/-- Message of `st.info` before executing the stored code. -/
def runInfoMsg : String := "Running generated app below..."

/-- Message of `st.error` when `render_app` is missing or not callable. -/
def renderNotFoundMsg : String :=
  "render_app() function not found in generated code.\nEnsure your n8n AI Agent always defines:\n    def render_app():\n"

/-- Message head of `st.error(f"Error while running the generated app: {e}")`. -/
def errRunMsg : String := "Error while running the generated app: "

/-- The run-button body of `main`: read the slot, strip it, warn if blank;
otherwise `exec` the code in `local_ns = {"st": st}` and, inside the same
`try`, look up `render_app` and call it if callable, else show the
contract-violation error; any exception from `exec` or from the call is
caught by the one `except` and reported. -/
def runStoredCode (execSem : ExecSem) (stored : String) : List Effect :=
  let code := pyStrip stored
  if code = "" then [Effect.stWarning runWarnMsg]
  else
    Effect.stInfo runInfoMsg ::
    Effect.execCode ["st"] code ::
    match execSem code with
    | .raises => [Effect.stError errRunMsg]
    | .completes .absent => [Effect.stError renderNotFoundMsg]
    | .completes .notCallable => [Effect.stError renderNotFoundMsg]
    | .completes (.callable zeroArg out raises) =>
      if zeroArg then
        Effect.callRender :: out.map Effect.renderOut ++
          (if raises then [Effect.stError errRunMsg] else [])
      else
        [Effect.callRender, Effect.stError errRunMsg]

/-! ## Orchestration (`main`) -/

/-- Message of `st.warning` when generate is clicked with a blank description. -/
def blankPromptMsg : String := "Please enter a description for your app or game first."

/-- Message of `st.error` when the client returned an empty result. -/
def noCodeMsg : String :=
  "No code received from n8n. Check your n8n workflow, AI Agent output, or logs."

/-- Message of `st.success` after a successful generation. -/
def genSuccessMsg : String := "✅ Code generated successfully!"

/-- Message of `st.write` in the preview panel when no code has been generated. -/
def noCodeYetMsg : String :=
  "No code generated yet. Enter a prompt and click **Generate Code**."

/-- The first radio option. -/
def modeOptionApp : String := "Generate App (tkinter-style utility)"

/-- The second radio option. -/
def modeOptionGame : String := "Generate Game (pygame-style logic)"

/-- Whether `sub` occurs as an infix of `l`. -/
def listContains (sub : List Char) : List Char → Bool
  | [] => sub.isEmpty
  | c :: rest => sub.isPrefixOf (c :: rest) || listContains sub rest

/-- Python `sub in s` (substring containment). -/
def containsSub (sub s : String) : Bool := listContains sub.data s.data

/-- One rerun's inputs: the widget values, which buttons returned `True`
this rerun, and the network's answer to the POST (consulted only if a POST
happens). -/
structure Interaction where
  prompt : String
  modeFirst : Bool
  generateClicked : Bool
  runClicked : Bool
  net : PostResult

/-- The selected radio label. -/
def modeLabel (inp : Interaction) : String :=
  if inp.modeFirst then modeOptionApp else modeOptionGame

/-- Variable `mode_value`: `"app"` if `"App" in mode_label` else `"game"`. -/
def modeValue (inp : Interaction) : String :=
  if containsSub "App" (modeLabel inp) then "app" else "game"

/-- The generate-button body of `main`: warn on a blank description,
otherwise call the client with the stripped prompt (`prompt.strip()` is
what the source passes); on an empty result show `noCodeMsg` and keep the
slot, otherwise store the returned code and show the success banner. -/
def generateBranch (inp : Interaction) (gc0 : String) : List Effect × String :=
  if pyStrip inp.prompt = "" then ([Effect.stWarning blankPromptMsg], gc0)
  else
    let res := call_n8n_generate_code inp.net (pyStrip inp.prompt) (modeValue inp)
    if res.2 = "" then (res.1 ++ [Effect.stError noCodeMsg], gc0)
    else (res.1 ++ [Effect.stSuccess genSuccessMsg], res.2)

/-- The preview panel at the bottom of the page: the stripped slot as a
code block, or a placeholder line when the slot is blank. -/
def previewPanel (gc : String) : List Effect :=
  if pyStrip gc = "" then [Effect.stWrite noCodeYetMsg]
  else [Effect.stCode (pyStrip gc)]

/-- One rerun of `main`, from the session slot `gc0` (the
`if "generated_code" not in st.session_state` guard makes the slot `""`
on the very first rerun, so the slot is always a string here).  Returns
the effect trace and the new slot value: the generate branch if that
button fired, then the run branch (`runStoredCode` on the slot as left by
the generate branch) if that button fired, then the preview panel. -/
def mainRerun (execSem : ExecSem) (inp : Interaction) (gc0 : String) :
    List Effect × String :=
  let gen := if inp.generateClicked then generateBranch inp gc0 else ([], gc0)
  let runEffects := if inp.runClicked then runStoredCode execSem gen.2 else []
  (gen.1 ++ runEffects ++ previewPanel gen.2, gen.2)

/-- The effect trace of one rerun. -/
def rerunTrace (execSem : ExecSem) (inp : Interaction) (gc0 : String) : List Effect :=
  (mainRerun execSem inp gc0).1

/-- The session slot after one rerun. -/
def rerunState (execSem : ExecSem) (inp : Interaction) (gc0 : String) : String :=
  (mainRerun execSem inp gc0).2

/-- Whether an effect is an outbound HTTP POST. -/
def Effect.isPost : Effect → Bool
  | .httpPost _ _ _ _ => true
  | _ => false

/-- Spec-side description of the client's result (for the refinement claim
about `call_n8n_generate_code`, with the status condition as the code
enforces it): the call yields a code string exactly when the POST returned,
the status is not a 4xx/5xx error, the body is a JSON object whose `code`
field is a string, and that string is non-blank after stripping; the
yielded string is the stripped `code` field.  Everything else is the
undifferentiated failure, reported as the empty string. -/
def specCodeResult (net : PostResult) : Option String :=
  match net with
  | .exn => none
  | .ok status body =>
    if 400 ≤ status ∧ status < 600 then none
    else
      match body with
      | some (Json.obj fields) =>
        match dictGet fields "code" with
        | some (Json.str s) => if pyStrip s = "" then none else some (pyStrip s)
        | _ => none
      | _ => none

/-! ## Helper lemmas -/

theorem pyStrip_empty : pyStrip "" = "" := by decide

theorem raise_for_status_iff (status : Nat) :
    raise_for_status_raises status = true ↔ (400 ≤ status ∧ status < 600) := by
  simp only [raise_for_status_raises, Bool.or_eq_true, Bool.and_eq_true, decide_eq_true_eq]
  omega

/-- The client's returned string agrees with the spec-side description. -/
theorem call_n8n_result_eq (net : PostResult) (p m : String) :
    (call_n8n_generate_code net p m).2 = (specCodeResult net).getD "" := by
  cases net with
  | exn => rfl
  | ok status body =>
    by_cases h : 400 ≤ status ∧ status < 600
    · have hr : raise_for_status_raises status = true := (raise_for_status_iff status).mpr h
      cases body <;> simp [call_n8n_generate_code, specCodeResult, hr, h]
    · have hr : raise_for_status_raises status = false := by
        cases hb : raise_for_status_raises status
        · rfl
        · exact absurd ((raise_for_status_iff status).mp hb) h
      cases body with
      | none => simp [call_n8n_generate_code, specCodeResult, hr, h]
      | some j =>
        cases j with
        | obj fields =>
          rcases hv : dictGet fields "code" with _ | v
          · simp [call_n8n_generate_code, specCodeResult, hr, h, hv]
          · cases v with
            | str s =>
              by_cases hs : s = ""
              · subst hs
                simp [call_n8n_generate_code, specCodeResult, hr, h, hv, pyStrip_empty]
              · by_cases hps : pyStrip s = "" <;>
                  simp [call_n8n_generate_code, specCodeResult, hr, h, hv, hs, hps]
            | null => cases htv : (Json.null).truthy <;>
                simp [call_n8n_generate_code, specCodeResult, hr, h, hv, htv]
            | bool b => cases htv : (Json.bool b).truthy <;>
                simp [call_n8n_generate_code, specCodeResult, hr, h, hv, htv]
            | num n => cases htv : (Json.num n).truthy <;>
                simp [call_n8n_generate_code, specCodeResult, hr, h, hv, htv]
            | arr xs => cases htv : (Json.arr xs).truthy <;>
                simp [call_n8n_generate_code, specCodeResult, hr, h, hv, htv]
            | obj fs => cases htv : (Json.obj fs).truthy <;>
                simp [call_n8n_generate_code, specCodeResult, hr, h, hv, htv]
        | null => simp [call_n8n_generate_code, specCodeResult, hr, h]
        | bool b => simp [call_n8n_generate_code, specCodeResult, hr, h]
        | num n => simp [call_n8n_generate_code, specCodeResult, hr, h]
        | str s => simp [call_n8n_generate_code, specCodeResult, hr, h]
        | arr xs => simp [call_n8n_generate_code, specCodeResult, hr, h]

/-- Every effect the client emits is the one POST or the contact-error
banner. -/
theorem mem_call_n8n_trace (net : PostResult) (p m : String) (e : Effect)
    (h : e ∈ (call_n8n_generate_code net p m).1) :
    e = Effect.httpPost N8N_WEBHOOK_URL p m 90 ∨ e = Effect.stError errContactMsg := by
  cases net with
  | exn => simpa [call_n8n_generate_code] using h
  | ok status body =>
    by_cases hr : raise_for_status_raises status = true
    · cases body <;> simp_all [call_n8n_generate_code]
    · simp only [Bool.not_eq_true] at hr
      cases body with
      | none => simp_all [call_n8n_generate_code]
      | some j =>
        cases j with
        | obj fields =>
          rcases hv : dictGet fields "code" with _ | v
          · simp_all [call_n8n_generate_code]
          · cases v with
            | str s => by_cases hs : s = "" <;> simp_all [call_n8n_generate_code]
            | null => simp_all [call_n8n_generate_code, Json.truthy]
            | bool b => cases b <;> simp_all [call_n8n_generate_code, Json.truthy]
            | num n => by_cases hn : n = 0 <;> simp_all [call_n8n_generate_code, Json.truthy]
            | arr xs => cases xs <;> simp_all [call_n8n_generate_code, Json.truthy]
            | obj fs => cases fs <;> simp_all [call_n8n_generate_code, Json.truthy]
        | null => simp_all [call_n8n_generate_code]
        | bool b => simp_all [call_n8n_generate_code]
        | num n => simp_all [call_n8n_generate_code]
        | str s => simp_all [call_n8n_generate_code]
        | arr xs => simp_all [call_n8n_generate_code]

/-- The client's trace contains exactly one POST: the one the source
builds, to the fixed URL, with the prompt/mode payload and timeout 90. -/
theorem call_n8n_posts (net : PostResult) (p m : String) :
    (call_n8n_generate_code net p m).1.filter Effect.isPost
      = [Effect.httpPost N8N_WEBHOOK_URL p m 90] := by
  cases net with
  | exn => simp [call_n8n_generate_code, Effect.isPost]
  | ok status body =>
    by_cases hr : raise_for_status_raises status = true
    · cases body <;> simp_all [call_n8n_generate_code, Effect.isPost]
    · simp only [Bool.not_eq_true] at hr
      cases body with
      | none => simp_all [call_n8n_generate_code, Effect.isPost]
      | some j =>
        cases j with
        | obj fields =>
          rcases hv : dictGet fields "code" with _ | v
          · simp_all [call_n8n_generate_code, Effect.isPost]
          · cases v with
            | str s => by_cases hs : s = "" <;>
                simp_all [call_n8n_generate_code, Effect.isPost]
            | null => simp_all [call_n8n_generate_code, Json.truthy, Effect.isPost]
            | bool b => cases b <;>
                simp_all [call_n8n_generate_code, Json.truthy, Effect.isPost]
            | num n => by_cases hn : n = 0 <;>
                simp_all [call_n8n_generate_code, Json.truthy, Effect.isPost]
            | arr xs => cases xs <;>
                simp_all [call_n8n_generate_code, Json.truthy, Effect.isPost]
            | obj fs => cases fs <;>
                simp_all [call_n8n_generate_code, Json.truthy, Effect.isPost]
        | null => simp_all [call_n8n_generate_code, Effect.isPost]
        | bool b => simp_all [call_n8n_generate_code, Effect.isPost]
        | num n => simp_all [call_n8n_generate_code, Effect.isPost]
        | str s => simp_all [call_n8n_generate_code, Effect.isPost]
        | arr xs => simp_all [call_n8n_generate_code, Effect.isPost]

theorem renderOut_map_no_post (out : List String) :
    (out.map Effect.renderOut).filter Effect.isPost = [] := by
  induction out with
  | nil => rfl
  | cons a t ih => simp [Effect.isPost, ih]

/-- The run-button branch issues no HTTP request, whatever the stored code
does when executed. -/
theorem runStoredCode_no_post (execSem : ExecSem) (stored : String) :
    (runStoredCode execSem stored).filter Effect.isPost = [] := by
  unfold runStoredCode
  by_cases hc : pyStrip stored = ""
  · simp [hc, Effect.isPost]
  · cases hx : execSem (pyStrip stored) with
    | raises => simp [hc, hx, Effect.isPost]
    | completes b =>
      cases b with
      | absent => simp [hc, hx, Effect.isPost]
      | notCallable => simp [hc, hx, Effect.isPost]
      | callable z out r =>
        cases z <;> cases r <;>
          simp [hc, hx, Effect.isPost, renderOut_map_no_post, List.filter_append]

/-- The only namespace ever handed to `exec` by the run-button branch is
`{"st": st}`, and the code executed is the stripped slot value. -/
theorem mem_runStoredCode_execCode (execSem : ExecSem) (stored : String)
    (keys : List String) (code : String)
    (h : Effect.execCode keys code ∈ runStoredCode execSem stored) :
    keys = ["st"] ∧ code = pyStrip stored := by
  unfold runStoredCode at h
  by_cases hc : pyStrip stored = ""
  · simp [hc] at h
  · cases hx : execSem (pyStrip stored) with
    | raises => simp [hc, hx] at h; exact h
    | completes b =>
      cases b with
      | absent => simp [hc, hx] at h; exact h
      | notCallable => simp [hc, hx] at h; exact h
      | callable z out r =>
        cases z <;> cases r <;>
          simp [hc, hx] at h <;> exact h

/-- A rerun where only the run button fired: the trace is the run branch
followed by the preview panel, and the slot is untouched. -/
theorem rerun_run_only (execSem : ExecSem) (inp : Interaction) (gc0 : String)
    (hg : inp.generateClicked = false) (hr : inp.runClicked = true) :
    mainRerun execSem inp gc0 =
      (runStoredCode execSem gc0 ++ previewPanel gc0, gc0) := by
  simp [mainRerun, hg, hr]

/-- Every effect of the generate branch is one of the five the source can
emit there. -/
theorem mem_generateBranch (inp : Interaction) (gc0 : String) (e : Effect)
    (h : e ∈ (generateBranch inp gc0).1) :
    e = Effect.stWarning blankPromptMsg ∨
    e = Effect.httpPost N8N_WEBHOOK_URL (pyStrip inp.prompt) (modeValue inp) 90 ∨
    e = Effect.stError errContactMsg ∨ e = Effect.stError noCodeMsg ∨
    e = Effect.stSuccess genSuccessMsg := by
  unfold generateBranch at h
  by_cases hp : pyStrip inp.prompt = ""
  · simp [hp] at h
    simp [h]
  · by_cases hf :
        (call_n8n_generate_code inp.net (pyStrip inp.prompt) (modeValue inp)).2 = ""
    · simp [hp, hf] at h
      rcases h with h | h
      · rcases mem_call_n8n_trace _ _ _ _ h with h | h <;> simp [h]
      · simp [h]
    · simp [hp, hf] at h
      rcases h with h | h
      · rcases mem_call_n8n_trace _ _ _ _ h with h | h <;> simp [h]
      · simp [h]

/-! ## Claims -/

/-- C1, counterexample to the claim as stated: a response with status 300
— not a 2xx status — whose body is `{"code": "hello"}` makes
`call_n8n_generate_code` return `"hello"`, not the empty string the claim
requires for every non-2xx status (`raise_for_status` only raises for
4xx/5xx, so 300 sails through). -/
theorem client_non2xx_success_counterexample :
    ¬(200 ≤ 300 ∧ 300 ≤ 299) ∧
    (call_n8n_generate_code
        (PostResult.ok 300 (some (Json.obj [("code", Json.str "hello")])))
        "p" "app").2 = "hello" := by decide

/-- C1 (amended: "non-2xx status" becomes "4xx or 5xx status", and the
`code` field must be a string — a non-string field also yields `""`): the
client returns the stripped `code` string when the POST returns a
non-4xx/5xx status with a JSON-object body whose `code` field is a
non-blank string, and the empty string in every other case (transport
error or timeout, 4xx/5xx status, unparseable or non-object body, missing,
non-string or blank `code` field); `specCodeResult` spells out exactly
these conditions. -/
theorem client_returns_trimmed_code_or_empty (net : PostResult) (p m : String) :
    (call_n8n_generate_code net p m).2 = (specCodeResult net).getD "" :=
  call_n8n_result_eq net p m

/-- C2, counterexample to the claim as stated: with status 302 — not 2xx —
and body `{"code": "ok"}` the client returns a non-empty code string,
i.e. the response is treated as success without a 2xx status. -/
theorem client_success_without_2xx_counterexample :
    ¬(200 ≤ 302 ∧ 302 ≤ 299) ∧
    (call_n8n_generate_code
        (PostResult.ok 302 (some (Json.obj [("code", Json.str "ok")])))
        "d" "game").2 ≠ "" := by decide

/-- C2 (amended: "2xx status" becomes "a status `raise_for_status` does
not reject, i.e. not 4xx/5xx"): every client invocation with mode in
{"app", "game"} performs exactly one outbound POST, to the fixed
`N8N_WEBHOOK_URL`, with payload `{"prompt": d, "mode": m}` and timeout 90;
and it treats the response as success (returns a non-empty code) only if
the POST returned a response with a non-4xx/5xx status and a JSON-object
body whose `code` field is a string. -/
theorem client_one_post_and_success_shape (net : PostResult) (d m : String)
    (hm : m = "app" ∨ m = "game") :
    (call_n8n_generate_code net d m).1.filter Effect.isPost
        = [Effect.httpPost N8N_WEBHOOK_URL d m 90] ∧
    ((call_n8n_generate_code net d m).2 ≠ "" →
      ∃ status fields s, net = PostResult.ok status (some (Json.obj fields)) ∧
        raise_for_status_raises status = false ∧
        dictGet fields "code" = some (Json.str s)) := by
  refine ⟨call_n8n_posts net d m, ?_⟩
  intro hne
  rw [call_n8n_result_eq] at hne
  cases net with
  | exn => simp [specCodeResult] at hne
  | ok status body =>
    by_cases h : 400 ≤ status ∧ status < 600
    · simp [specCodeResult, h] at hne
    · have hr : raise_for_status_raises status = false := by
        cases hb : raise_for_status_raises status
        · rfl
        · exact absurd ((raise_for_status_iff status).mp hb) h
      cases body with
      | none => simp [specCodeResult, h] at hne
      | some j =>
        cases j with
        | obj fields =>
          rcases hv : dictGet fields "code" with _ | v
          · simp [specCodeResult, h, hv] at hne
          · cases v with
            | str s => exact ⟨status, fields, s, rfl, hr, hv⟩
            | null => simp [specCodeResult, h, hv] at hne
            | bool b => simp [specCodeResult, h, hv] at hne
            | num n => simp [specCodeResult, h, hv] at hne
            | arr xs => simp [specCodeResult, h, hv] at hne
            | obj fs => simp [specCodeResult, h, hv] at hne
        | null => simp [specCodeResult, h] at hne
        | bool b => simp [specCodeResult, h] at hne
        | num n => simp [specCodeResult, h] at hne
        | str s => simp [specCodeResult, h] at hne
        | arr xs => simp [specCodeResult, h] at hne

/-- Witness for `client_one_post_and_success_shape`, at the spec's example
input ("a calculator with history", mode "app"). -/
theorem client_one_post_and_success_shape_witness :
    (call_n8n_generate_code
        (PostResult.ok 200
          (some (Json.obj [("code", Json.str "def render_app():\n    pass")])))
        "a calculator with history" "app").1.filter Effect.isPost
      = [Effect.httpPost N8N_WEBHOOK_URL "a calculator with history" "app" 90] :=
  (client_one_post_and_success_shape _ _ _ (Or.inl rfl)).1

/-- C3: on a generate-button rerun whose description is blank (empty or
whitespace-only after stripping), no HTTP POST appears anywhere in the
rerun's trace — the generation client is never called — and the
blank-description warning is shown. -/
theorem blank_description_never_posts (execSem : ExecSem) (inp : Interaction)
    (gc0 : String)
    (hg : inp.generateClicked = true) (hp : pyStrip inp.prompt = "") :
    (rerunTrace execSem inp gc0).filter Effect.isPost = [] ∧
    Effect.stWarning blankPromptMsg ∈ rerunTrace execSem inp gc0 := by
  have htr : rerunTrace execSem inp gc0 =
      [Effect.stWarning blankPromptMsg] ++
        (if inp.runClicked then runStoredCode execSem gc0 else []) ++
        previewPanel gc0 := by
    simp [rerunTrace, mainRerun, generateBranch, hg, hp]
  rw [htr]
  refine ⟨?_, by simp⟩
  cases hrc : inp.runClicked <;> by_cases hgc : pyStrip gc0 = "" <;>
    simp [hrc, hgc, previewPanel, List.filter_append, Effect.isPost,
      runStoredCode_no_post]

/-- Witness for `blank_description_never_posts`: a whitespace-only
description with the generate button fired issues no POST. -/
theorem blank_description_never_posts_witness :
    (rerunTrace (fun _ => ExecResult.raises)
        ⟨"   ", true, true, false, PostResult.exn⟩ "").filter Effect.isPost = [] :=
  (blank_description_never_posts _ _ "" rfl (by decide)).1

/-- C4: on a generate-button rerun with a non-blank description where the
client comes back empty, the error banner is shown and the session slot
still holds exactly the value it held before the rerun. -/
theorem failed_generation_keeps_slot (execSem : ExecSem) (inp : Interaction)
    (gc0 : String)
    (hg : inp.generateClicked = true) (hp : pyStrip inp.prompt ≠ "")
    (hf : (call_n8n_generate_code inp.net (pyStrip inp.prompt) (modeValue inp)).2
      = "") :
    rerunState execSem inp gc0 = gc0 ∧
    Effect.stError noCodeMsg ∈ rerunTrace execSem inp gc0 := by
  constructor
  · simp [rerunState, mainRerun, generateBranch, hg, hp, hf]
  · simp [rerunTrace, mainRerun, generateBranch, hg, hp, hf]

/-- Witness for `failed_generation_keeps_slot`: a transport error leaves
the previously cached code "old" in the slot. -/
theorem failed_generation_keeps_slot_witness :
    rerunState (fun _ => ExecResult.raises)
      ⟨"idea", true, true, false, PostResult.exn⟩ "old" = "old" :=
  (failed_generation_keeps_slot _ _ "old" rfl (by decide) (by decide)).1

/-- C5: on a generate-button rerun with a non-blank description where the
response has an accepted status and a JSON-object body whose `code` field
is a non-blank string, the stripped code string becomes the new session
slot value, whatever the slot held before. -/
theorem successful_generation_overwrites_slot (execSem : ExecSem)
    (inp : Interaction) (gc0 : String) (status : Nat)
    (fields : List (String × Json)) (s : String)
    (hg : inp.generateClicked = true) (hp : pyStrip inp.prompt ≠ "")
    (hnet : inp.net = PostResult.ok status (some (Json.obj fields)))
    (hst : raise_for_status_raises status = false)
    (hcode : dictGet fields "code" = some (Json.str s))
    (hs : pyStrip s ≠ "") :
    rerunState execSem inp gc0 = pyStrip s := by
  have hs0 : s ≠ "" := by
    intro h0
    rw [h0, pyStrip_empty] at hs
    exact hs rfl
  have hres :
      (call_n8n_generate_code inp.net (pyStrip inp.prompt) (modeValue inp)).2
        = pyStrip s := by
    simp [call_n8n_generate_code, hnet, hst, hcode, hs0]
  simp [rerunState, mainRerun, generateBranch, hg, hp, hres, hs]

/-- Witness for `successful_generation_overwrites_slot`, at the spec's
example response: the slot "old" is replaced by the generated code. -/
theorem successful_generation_overwrites_slot_witness :
    rerunState (fun _ => ExecResult.raises)
      ⟨"a calculator with history", true, true, false,
        PostResult.ok 200
          (some (Json.obj [("code", Json.str "def render_app():\n    pass")]))⟩
      "old" = pyStrip "def render_app():\n    pass" :=
  successful_generation_overwrites_slot _ _ "old" 200
    [("code", Json.str "def render_app():\n    pass")] _
    rfl (by decide) rfl (by decide) rfl (by decide)

/-- C6, counterexample to the claim as stated: code whose execution
completes defining `render_app` as a callable that does not accept a
zero-argument call (say `def render_app(x): ...`) defines no zero-argument
callable named `render_app`, yet the executor does attempt the invocation
(`callable(render_func)` checks callability only, so `render_func()` is
called and its `TypeError` lands in the generic handler) and never shows
the specific "render_app() function not found" message. -/
theorem unary_render_app_counterexample :
    Effect.callRender ∈
      rerunTrace (fun _ => ExecResult.completes (RenderBinding.callable false [] true))
        ⟨"", true, false, true, PostResult.exn⟩ "x" ∧
    Effect.stError renderNotFoundMsg ∉
      rerunTrace (fun _ => ExecResult.completes (RenderBinding.callable false [] true))
        ⟨"", true, false, true, PostResult.exn⟩ "x" := by decide

/-- C6 (amended: "zero-argument callable" becomes "callable" — the source
checks `callable(render_func)` only, so a callable of the wrong arity is
invoked rather than reported): on a run-button rerun with a non-empty
slot whose execution completes without binding `render_app` to a callable
(absent or not callable), the executor shows the specific
"render_app() function not found" message and never attempts an
invocation. -/
theorem missing_render_app_reported (execSem : ExecSem) (inp : Interaction)
    (gc0 : String)
    (hg : inp.generateClicked = false) (hr : inp.runClicked = true)
    (hc : pyStrip gc0 ≠ "")
    (hb : execSem (pyStrip gc0) = ExecResult.completes RenderBinding.absent ∨
          execSem (pyStrip gc0) = ExecResult.completes RenderBinding.notCallable) :
    Effect.stError renderNotFoundMsg ∈ rerunTrace execSem inp gc0 ∧
    Effect.callRender ∉ rerunTrace execSem inp gc0 := by
  have htr := rerun_run_only execSem inp gc0 hg hr
  have hruntr : runStoredCode execSem gc0 =
      [Effect.stInfo runInfoMsg, Effect.execCode ["st"] (pyStrip gc0),
        Effect.stError renderNotFoundMsg] := by
    rcases hb with hb | hb <;> simp [runStoredCode, hc, hb]
  simp [rerunTrace, htr, hruntr, previewPanel, hc]

/-- Witness for `missing_render_app_reported`: execution that completes
without defining `render_app` produces the specific error banner. -/
theorem missing_render_app_reported_witness :
    Effect.stError renderNotFoundMsg ∈
      rerunTrace (fun _ => ExecResult.completes RenderBinding.absent)
        ⟨"", true, false, true, PostResult.exn⟩ "x" :=
  (missing_render_app_reported _ _ "x" rfl rfl (by decide) (Or.inl rfl)).1

/-- C7: the two execution fault domains are handled independently.  If
`exec` of the stored code raises, the error banner is shown and neither
the invocation nor the entry-point-missing report ever happens (execution
does not reach the lookup).  If `exec` completes with a zero-argument
callable `render_app` whose body raises, the error banner is shown and
the rerun still reaches the preview panel — the host page survives. -/
theorem exec_fault_domains_isolated (execSem : ExecSem) (inp : Interaction)
    (gc0 : String)
    (hg : inp.generateClicked = false) (hr : inp.runClicked = true)
    (hc : pyStrip gc0 ≠ "") :
    (execSem (pyStrip gc0) = ExecResult.raises →
      Effect.stError errRunMsg ∈ rerunTrace execSem inp gc0 ∧
      Effect.callRender ∉ rerunTrace execSem inp gc0 ∧
      Effect.stError renderNotFoundMsg ∉ rerunTrace execSem inp gc0) ∧
    (∀ out,
      execSem (pyStrip gc0)
          = ExecResult.completes (RenderBinding.callable true out true) →
      Effect.stError errRunMsg ∈ rerunTrace execSem inp gc0 ∧
      Effect.stCode (pyStrip gc0) ∈ rerunTrace execSem inp gc0) := by
  have htr := rerun_run_only execSem inp gc0 hg hr
  have hne : renderNotFoundMsg ≠ errRunMsg := by decide
  constructor
  · intro hx
    simp [rerunTrace, htr, runStoredCode, hc, hx, previewPanel, hne]
  · intro out hx
    simp [rerunTrace, htr, runStoredCode, hc, hx, previewPanel]

/-- Witness for `exec_fault_domains_isolated`: code whose top level raises
yields the run-error banner and no invocation. -/
theorem exec_fault_domains_isolated_witness :
    Effect.stError errRunMsg ∈
      rerunTrace (fun _ => ExecResult.raises)
        ⟨"", true, false, true, PostResult.exn⟩ "x" :=
  ((exec_fault_domains_isolated _ _ "x" rfl rfl (by decide)).1 rfl).1

/-- C8: whenever a rerun hands a code string to `exec`, the namespace it
passes has exactly the one key `"st"` — the injected UI-rendering handle
is the only pre-seeded capability. -/
theorem exec_namespace_exactly_st (execSem : ExecSem) (inp : Interaction)
    (gc0 : String) (keys : List String) (code : String)
    (h : Effect.execCode keys code ∈ rerunTrace execSem inp gc0) :
    keys = ["st"] := by
  have hmem : Effect.execCode keys code ∈
      (if inp.generateClicked then generateBranch inp gc0 else ([], gc0)).1 ++
        ((if inp.runClicked then
            runStoredCode execSem
              (if inp.generateClicked then generateBranch inp gc0 else ([], gc0)).2
          else []) ++
          previewPanel
            (if inp.generateClicked then generateBranch inp gc0 else ([], gc0)).2) := by
    simpa [rerunTrace, mainRerun] using h
  rw [List.mem_append] at hmem
  rcases hmem with hmem | hmem
  · cases hgc : inp.generateClicked
    · rw [hgc] at hmem
      simp at hmem
    · rw [hgc] at hmem
      simp only [if_pos] at hmem
      rcases mem_generateBranch _ _ _ hmem with h1 | h1 | h1 | h1 | h1 <;>
        exact absurd h1 (by simp)
  · rw [List.mem_append] at hmem
    rcases hmem with hmem | hmem
    · cases hrc : inp.runClicked
      · rw [hrc] at hmem
        simp at hmem
      · rw [hrc] at hmem
        simp only [if_pos] at hmem
        exact (mem_runStoredCode_execCode _ _ _ _ hmem).1
    · by_cases hpv :
          pyStrip (if inp.generateClicked then generateBranch inp gc0
            else ([], gc0)).2 = "" <;>
        simp [previewPanel, hpv] at hmem

/-- Witness for `exec_namespace_exactly_st`: on a concrete run-button
rerun, the namespace passed to `exec` is `["st"]`. -/
theorem exec_namespace_exactly_st_witness : (["st"] : List String) = ["st"] :=
  exec_namespace_exactly_st (fun _ => ExecResult.raises)
    ⟨"", true, false, true, PostResult.exn⟩ "x" ["st"] "x" (by decide)

/-- C9: running the stored code changes no session state (the slot is
untouched), so re-invoking the executor on the same stored code — with the
execution environment fixed, which is what "no side-effecting state
changes" means — replays the identical trace, and in particular the same
sequence of rendering calls. -/
theorem executor_idempotent (execSem : ExecSem) (inp : Interaction) (gc0 : String)
    (hg : inp.generateClicked = false) (hr : inp.runClicked = true) :
    rerunState execSem inp gc0 = gc0 ∧
    rerunTrace execSem inp (rerunState execSem inp gc0)
      = rerunTrace execSem inp gc0 := by
  have hst : rerunState execSem inp gc0 = gc0 := by
    simp [rerunState, rerun_run_only execSem inp gc0 hg hr]
  exact ⟨hst, by rw [hst]⟩

/-- Witness for `executor_idempotent`: a concrete second run replays the
first run's trace. -/
theorem executor_idempotent_witness :
    rerunTrace (fun _ => ExecResult.completes (RenderBinding.callable true ["t"] false))
        ⟨"", true, false, true, PostResult.exn⟩
        (rerunState
          (fun _ => ExecResult.completes (RenderBinding.callable true ["t"] false))
          ⟨"", true, false, true, PostResult.exn⟩ "x")
      = rerunTrace
          (fun _ => ExecResult.completes (RenderBinding.callable true ["t"] false))
          ⟨"", true, false, true, PostResult.exn⟩ "x" :=
  (executor_idempotent _ _ "x" rfl rfl).2

/-- C10: on a run-button rerun while the slot is empty or whitespace-only,
the "generate first" warning is shown and the rerun neither executes any
code nor looks up or invokes an entry point. -/
theorem empty_slot_run_warns (execSem : ExecSem) (inp : Interaction) (gc0 : String)
    (hg : inp.generateClicked = false) (hr : inp.runClicked = true)
    (hc : pyStrip gc0 = "") :
    Effect.stWarning runWarnMsg ∈ rerunTrace execSem inp gc0 ∧
    (∀ keys code, Effect.execCode keys code ∉ rerunTrace execSem inp gc0) ∧
    Effect.callRender ∉ rerunTrace execSem inp gc0 ∧
    Effect.stError renderNotFoundMsg ∉ rerunTrace execSem inp gc0 := by
  have htr := rerun_run_only execSem inp gc0 hg hr
  simp [rerunTrace, htr, runStoredCode, previewPanel, hc]

/-- Witness for `empty_slot_run_warns`: a run click on a whitespace-only
slot shows the warning. -/
theorem empty_slot_run_warns_witness :
    Effect.stWarning runWarnMsg ∈
      rerunTrace (fun _ => ExecResult.raises)
        ⟨"", true, false, true, PostResult.exn⟩ "  " :=
  (empty_slot_run_warns _ _ "  " rfl rfl (by decide)).1

end AppGen
